import Mathlib

/-!
Shallow embedding of `vllm/model_executor/layers/quantization/gptq_marlin.py`
(GPTQ Marlin quantization: config construction, per-layer policy resolution,
shape and sharding planning for linear and MoE layers, the activation-order
sorting performed at finalize time, and the apply-time feature checks).

Tensors are modelled by their shape metadata plus, for the group-index
tensors (`g_idx`, `*_g_idx_sort_indices`), their integer contents as lists,
since the claims quantify over those contents.  External CUDA kernels
(`ops.gptq_marlin_moe_repack`, `marlin_moe_permute_scales`) are out of scope
per the spec and are taken as function parameters, so every theorem holds for
an arbitrary kernel implementation.
-/

/-- The two packed scalar encodings reachable from `TYPE_MAP`
(`scalar_types.uint4b8` and `scalar_types.uint8b128`). -/
inductive ScalarType where
  | uint4b8
  | uint8b128
deriving DecidableEq, Repr, Inhabited

/-- `size_bits` of each scalar type (4 for uint4b8, 8 for uint8b128). -/
def ScalarType.size_bits : ScalarType → Nat
  | .uint4b8 => 4
  | .uint8b128 => 8

/-- `GPTQMarlinConfig.TYPE_MAP`: the dict
`{(4, True): uint4b8, (8, True): uint8b128}` keyed by `(num_bits, is_sym)`. -/
def TYPE_MAP (k : Nat × Bool) : Option ScalarType :=
  if k = (4, true) then some ScalarType.uint4b8
  else if k = (8, true) then some ScalarType.uint8b128
  else none

/-- The fields of `GPTQMarlinConfig` that the planner and finalize steps read.
The `dynamic` override dict and `full_config` are handled separately (see
`OverrideRule` and `resolve`). -/
structure GPTQMarlinConfig where
  weight_bits : Nat
  is_sym : Bool
  pack_factor : Nat
  group_size : Int
  desc_act : Bool
  lm_head_quantized : Bool
  quant_type : ScalarType
deriving DecidableEq, Repr, Inhabited

/-- `GPTQMarlinConfig.__init__`.  Mirrors the source order of effects:
first the `desc_act and group_size == -1` normalisation, then
`pack_factor = 32 // weight_bits` (a Python `ZeroDivisionError` when
`weight_bits == 0`), then the `TYPE_MAP` membership check which raises
`ValueError` on an unsupported `(bits, sym)` pair. -/
def GPTQMarlinConfig.init (weight_bits : Nat) (group_size : Int)
    (desc_act : Bool) (is_sym : Bool) (lm_head_quantized : Bool) :
    Except String GPTQMarlinConfig :=
  -- act_order == True is the same as act_order == False when there is only
  -- one group per output channel
  let desc_act := if desc_act && group_size == -1 then false else desc_act
  if weight_bits = 0 then
    Except.error "ZeroDivisionError: integer division or modulo by zero"
  else
    match TYPE_MAP (weight_bits, is_sym) with
    | none => Except.error "Unsupported quantization config"
    | some qt =>
        Except.ok
          { weight_bits := weight_bits
            is_sym := is_sym
            pack_factor := 32 / weight_bits
            group_size := group_size
            desc_act := desc_act
            lm_head_quantized := lm_head_quantized
            quant_type := qt }

/-- Total variant of `GPTQMarlinConfig.init` for use at concrete inputs where
construction is known to succeed (accompanied in each theorem by an explicit
`isOk` conjunct). -/
def GPTQMarlinConfig.initD (weight_bits : Nat) (group_size : Int)
    (desc_act : Bool) (is_sym : Bool) (lm_head_quantized : Bool) :
    GPTQMarlinConfig :=
  match GPTQMarlinConfig.init weight_bits group_size desc_act is_sym
      lm_head_quantized with
  | Except.ok c => c
  | Except.error _ => default

/-- The `quant_type` of a successfully constructed config, `none` when
construction fails. -/
def initQuantType (weight_bits : Nat) (group_size : Int) (desc_act : Bool)
    (is_sym : Bool) (lm_head_quantized : Bool) : Option ScalarType :=
  (GPTQMarlinConfig.init weight_bits group_size desc_act is_sym
      lm_head_quantized).toOption.map (·.quant_type)

/-- `GPTQMarlinMoEMethod.__init__`: branches on
`quant_config.quant_type.size_bits`, accepting only 4 (uint4b8) and
8 (uint8b128) and raising `ValueError` otherwise. -/
def GPTQMarlinMoEMethod.init (size_bits : Nat) : Except String ScalarType :=
  if size_bits = 4 then Except.ok ScalarType.uint4b8
  else if size_bits = 8 then Except.ok ScalarType.uint8b128
  else Except.error "GPTQMarlinMoEMethod only supports int4 and int8 now."

/-- Modelled from the spec: `marlin_repeat_scales_on_all_ranks` is defined in
`vllm/model_executor/layers/quantization/utils/marlin_utils.py`, which is not
part of the provided source.  Per the spec (section 4.3), scale tensors are
replicated across tensor-parallel ranks when EITHER activation-order is
disabled OR the partition is not row-parallel, and sharded exactly when
activation-order is enabled AND the partition is row-parallel. -/
def marlin_repeat_scales_on_all_ranks (act_order : Bool) (group_size : Int)
    (is_row_parallel : Bool) : Bool :=
  let _ := group_size
  (!act_order) || (!is_row_parallel)

/-- The tensor shapes allocated by `GPTQMarlinLinearMethod.create_weights`.
`scales_input_dim` is the `scales_and_zp_input_dim` value handed to the
weight loader: `none` means the scales are replicated on every rank, `some 0`
means they are sharded along input dimension 0. -/
structure LinearLayerShapes where
  qweight_rows : Nat
  qweight_cols : Nat
  g_idx_len : Nat
  scales_input_dim : Option Nat
  scales_rows : Nat
  scales_cols : Nat
  qzeros_rows : Nat
  qzeros_cols : Nat
deriving DecidableEq, Repr

/-- `GPTQMarlinLinearMethod.create_weights`: computes
`output_size_per_partition = sum(output_partition_sizes)`,
`is_row_parallel = input_size != input_size_per_partition`, normalises
`group_size` (`input_size` when the config says -1), branches on
`marlin_repeat_scales_on_all_ranks` to pick replicated vs sharded scale
allocation, and allocates `qweight` with shape
`(input_size_per_partition // pack_factor, output_size_per_partition)`. -/
def GPTQMarlinLinearMethod.create_weights (cfg : GPTQMarlinConfig)
    (input_size_per_partition : Nat) (output_partition_sizes : List Nat)
    (input_size : Nat) (output_size : Nat) : LinearLayerShapes :=
  let _ := output_size
  let output_size_per_partition := output_partition_sizes.sum
  let is_row_parallel : Bool := input_size != input_size_per_partition
  -- Normalize group_size
  let group_size : Nat :=
    if cfg.group_size != -1 then cfg.group_size.toNat else input_size
  -- Determine sharding
  let repeatScales :=
    marlin_repeat_scales_on_all_ranks cfg.desc_act cfg.group_size
      is_row_parallel
  let scales_and_zp_input_dim : Option Nat :=
    if repeatScales then none else some 0
  let scales_and_zp_size : Nat :=
    if repeatScales then input_size / group_size
    else input_size_per_partition / group_size
  { qweight_rows := input_size_per_partition / cfg.pack_factor
    qweight_cols := output_size_per_partition
    g_idx_len := input_size_per_partition
    scales_input_dim := scales_and_zp_input_dim
    scales_rows := scales_and_zp_size
    scales_cols := output_size_per_partition
    qzeros_rows := scales_and_zp_size
    qzeros_cols := output_size_per_partition / cfg.pack_factor }

/-- Shape metadata of one expert-batched tensor (leading dimension is the
number of experts); the contents live on the accelerator and are opaque to
the layout logic except for the group-index tensors. -/
structure Tensor3 where
  dim0 : Nat
  dim1 : Nat
  dim2 : Nat
deriving DecidableEq, Repr, Inhabited

/-- The state of a fused-MoE layer as seen by `GPTQMarlinMoEMethod`:
shape metadata for the packed weights and scales, and the integer contents of
the per-expert group-index tensors (one inner list per expert). -/
structure MoeLayer where
  w13_qweight : Tensor3
  w2_qweight : Tensor3
  w13_scales : Tensor3
  w2_scales : Tensor3
  load_full_w2 : Bool
  w13_g_idx : List (List Nat)
  w2_g_idx : List (List Nat)
  w13_g_idx_sort_indices : List (List Nat)
  w2_g_idx_sort_indices : List (List Nat)
  intermediate_size_per_partition : Nat
deriving DecidableEq, Repr, Inhabited

/-- `GPTQMarlinMoEMethod.create_weights`: computes the scale row counts
(`scales_size13`, `scales_size2`) — with `w2_scales_size` taken from the FULL
intermediate size when `desc_act` is set, else from the partition size — and
allocates all expert-batched tensors.  `load_full_w2` records the
`set_weight_attrs(w2_scales, {"load_full_w2": desc_act})` call ("dont shard
the w2 scales when running act order").  The `g_idx` tensors are allocated
uninitialised (`torch.empty`); their contents here stand for whatever the
external weight loader later writes. -/
def GPTQMarlinMoEMethod.create_weights (cfg : GPTQMarlinConfig)
    (num_experts : Nat) (hidden_size : Nat)
    (intermediate_size_per_partition : Nat)
    (intermediate_size_full : Nat) : MoeLayer :=
  let scales_size13 : Nat :=
    if cfg.group_size != -1 then hidden_size / cfg.group_size.toNat else 1
  let w2_scales_size : Nat :=
    if cfg.desc_act then intermediate_size_full
    else intermediate_size_per_partition
  let scales_size2 : Nat :=
    if cfg.group_size != -1 then w2_scales_size / cfg.group_size.toNat else 1
  { w13_qweight :=
      ⟨num_experts, hidden_size / cfg.pack_factor,
        2 * intermediate_size_per_partition⟩
    w2_qweight :=
      ⟨num_experts, intermediate_size_per_partition / cfg.pack_factor,
        hidden_size⟩
    w13_scales :=
      ⟨num_experts, scales_size13, 2 * intermediate_size_per_partition⟩
    w2_scales := ⟨num_experts, scales_size2, hidden_size⟩
    load_full_w2 := cfg.desc_act
    w13_g_idx := List.replicate num_experts (List.replicate hidden_size 0)
    w2_g_idx :=
      List.replicate num_experts
        (List.replicate intermediate_size_per_partition 0)
    w13_g_idx_sort_indices :=
      List.replicate num_experts (List.replicate hidden_size 0)
    w2_g_idx_sort_indices :=
      List.replicate num_experts
        (List.replicate intermediate_size_per_partition 0)
    intermediate_size_per_partition := intermediate_size_per_partition }

/-- `torch.argsort` on one group-index row, as used at finalize time: the
permutation of position indices that sorts the row ascending by group id
(mergeSort of the index range keyed by the row values; stable, so tied
positions keep their original order). -/
def argsortRow (xs : List Nat) : List Nat :=
  (List.range xs.length).mergeSort
    (fun i j => Nat.ble (xs.getD i 0) (xs.getD j 0))

/-- Fancy indexing `xs[idx]`: gather the entries of `xs` at the positions
listed in `idx` (out-of-range positions, which never occur for the
permutations produced here, default to 0). -/
def gatherRow (xs : List Nat) (idx : List Nat) : List Nat :=
  idx.map (fun i => xs.getD i 0)

/-- The inverse of a permutation `p` of `0..p.length-1`: position `i` holds
the index at which `i` occurs in `p`, so gathering through `invPerm p` undoes
gathering through `p`. -/
def invPerm (p : List Nat) : List Nat :=
  (List.range p.length).map (fun i => List.indexOf i p)

/-- `size_k` handed to `marlin_moe_permute_scales` for the down-projection
scales: `layer.w2_scales.shape[1] * (group_size if group_size != -1 else
pack_factor)` (lines 611-618 of the source). -/
def moe_w2_scales_size_k (cfg : GPTQMarlinConfig) (layer : MoeLayer) : Nat :=
  layer.w2_scales.dim1 *
    (if cfg.group_size != -1 then cfg.group_size.toNat else cfg.pack_factor)

/-- `GPTQMarlinMoEMethod.process_weights_after_loading` (finalize).  The two
external kernels are parameters:
`repack qw sortIdx size_k size_n num_bits` models
`ops.gptq_marlin_moe_repack` and `permuteScales s size_k size_n group_size`
models `marlin_moe_permute_scales`.  With `desc_act` set, every expert row of
`w13_g_idx`/`w2_g_idx` is replaced by its sorted version and the argsort
permutations are stored in the `*_sort_indices` tensors; otherwise all four
index tensors are reset to shape `(num_experts, 0)` where
`num_experts = w13_g_idx.shape[0]`.  The source contains no failure path and
in particular no guard against being run twice, so the result is always
`Except.ok`. -/
def GPTQMarlinMoEMethod.process_weights_after_loading
    (cfg : GPTQMarlinConfig)
    (repack : Tensor3 → List (List Nat) → Nat → Nat → Nat → Tensor3)
    (permuteScales : Tensor3 → Nat → Nat → Int → Tensor3)
    (layer : MoeLayer) : Except String MoeLayer :=
  -- Process act_order
  let st :=
    if cfg.desc_act then
      -- Get sorting based on g_idx
      { layer with
        w13_g_idx := layer.w13_g_idx.map (fun r => gatherRow r (argsortRow r))
        w2_g_idx := layer.w2_g_idx.map (fun r => gatherRow r (argsortRow r))
        w13_g_idx_sort_indices := layer.w13_g_idx.map argsortRow
        w2_g_idx_sort_indices := layer.w2_g_idx.map argsortRow }
    else
      -- Reset g_idx related tensors
      let num_experts := layer.w13_g_idx.length
      { layer with
        w13_g_idx := List.replicate num_experts []
        w2_g_idx := List.replicate num_experts []
        w13_g_idx_sort_indices := List.replicate num_experts []
        w2_g_idx_sort_indices := List.replicate num_experts [] }
  -- Repack weights
  let marlin_w13_qweight :=
    repack st.w13_qweight st.w13_g_idx_sort_indices
      (st.w13_qweight.dim1 * cfg.pack_factor) st.w13_qweight.dim2
      cfg.quant_type.size_bits
  let marlin_w2_qweight :=
    repack st.w2_qweight st.w2_g_idx_sort_indices
      (st.w2_qweight.dim1 * cfg.pack_factor) st.w2_qweight.dim2
      cfg.quant_type.size_bits
  -- Repack scales
  let marlin_w13_scales :=
    permuteScales st.w13_scales st.intermediate_size_per_partition
      st.w13_scales.dim2 cfg.group_size
  let marlin_w2_scales :=
    permuteScales st.w2_scales (moe_w2_scales_size_k cfg st)
      st.w2_scales.dim2 cfg.group_size
  Except.ok
    { st with
      w13_qweight := marlin_w13_qweight
      w2_qweight := marlin_w2_qweight
      w13_scales := marlin_w13_scales
      w2_scales := marlin_w2_scales }

/-- `GPTQMarlinMoEMethod.apply`: the feature checks that run before any
kernel work.  `enable_eplb` raises `NotImplementedError`; an activation other
than "silu" fails the `assert activation == "silu"`.  The `Except.ok` result
stands for handing off to `FusedMoE.select_experts` and the fused Marlin
kernel. -/
def GPTQMarlinMoEMethod.apply (enable_eplb : Bool) (activation : String) :
    Except String Unit :=
  if enable_eplb then
    Except.error "NotImplementedError: EPLB not supported for GPTQMarlinMoEMethod yet."
  else if activation = "silu" then
    Except.ok ()
  else
    Except.error "AssertionError: Only SiLU activation is supported."

/-- Polarity of a dynamic override rule: a `+:`-prefixed pattern is a
positive (include) match overriding config fields, a `-:`-prefixed pattern is
a negative (exclude) match that skips quantization for the module. -/
inductive Polarity where
  | positive
  | negative
deriving DecidableEq, Repr

/-- Field overrides carried by a positive rule (only the config fields the
source documents as overridable: bits, group_size, desc_act, sym). -/
structure FieldOverrides where
  bits : Option Nat := none
  group_size : Option Int := none
  desc_act : Option Bool := none
  sym : Option Bool := none

/-- Modelled from the spec: one entry of the `dynamic` override dict.  Regex
matching itself is external (Python `re`), so a rule carries an abstract
match predicate on layer names together with its polarity and field
overrides (spec section 3, OverrideRule). -/
structure OverrideRule where
  ruleMatches : String → Bool
  polarity : Polarity
  fields : FieldOverrides

/-- The quantization policy record the resolver works on (spec section 3,
QuantPolicy). -/
structure QuantPolicy where
  bit_width : Nat
  symmetric : Bool
  group_size : Int
  activation_order_enabled : Bool
  lm_head_quantized : Bool
deriving DecidableEq, Repr

/-- Apply the field overrides of one positive rule to a working copy of a
policy. -/
def applyOverrides (p : QuantPolicy) (f : FieldOverrides) : QuantPolicy :=
  { p with
    bit_width := f.bits.getD p.bit_width
    group_size := f.group_size.getD p.group_size
    activation_order_enabled := f.desc_act.getD p.activation_order_enabled
    symmetric := f.sym.getD p.symmetric }

/-- Modelled from the spec: the rule-scanning core of
`get_dynamic_override` / `override_config`
(`vllm/.../quantization/utils/gptq_utils.py`, not part of the provided
source).  Per spec section 4.1: rules are evaluated in list order; a
matching exclude rule returns Skip (`none`) immediately; each matching
include rule overwrites fields of the working copy; if nothing matched the
working copy (initially the base policy) is returned unchanged. -/
def resolveAux (working : QuantPolicy) (layerName : String) :
    List OverrideRule → Option QuantPolicy
  | [] => some working
  | r :: rs =>
      if r.ruleMatches layerName then
        match r.polarity with
        | .negative => none
        | .positive => resolveAux (applyOverrides working r.fields) layerName rs
      else resolveAux working layerName rs

/-- Modelled from the spec:
`resolve(base_policy, rules, layer_name) -> ResolvedPolicy | Skip`
(spec section 4.1).  Pure: the base policy record is read, never written. -/
def resolve (base : QuantPolicy) (rules : List OverrideRule)
    (layerName : String) : Option QuantPolicy :=
  resolveAux base layerName rules

/-- Outcome of `get_moe_quant_method` for a fused-MoE layer: either the
unquantized fallback method or the Marlin MoE method built from the resolved
(possibly overridden) config. -/
inductive MoeMethodChoice where
  | unquantized
  | quantized (policy : QuantPolicy)
deriving DecidableEq, Repr

/-- `get_moe_quant_method` on a fused-MoE layer: deep-copies the config,
returns the unquantized method when the dynamic rules exclude the layer
(`get_dynamic_override(...) == False`), else applies the per-layer overrides
to the clone and builds the MoE method from it.  The rule semantics is the
spec-modelled `resolve`. -/
def get_moe_quant_method (base : QuantPolicy) (rules : List OverrideRule)
    (layerName : String) : MoeMethodChoice :=
  match resolve base rules layerName with
  | none => MoeMethodChoice.unquantized
  | some p => MoeMethodChoice.quantized p

theorem length_gatherRow (xs idx : List Nat) :
    (gatherRow xs idx).length = idx.length := by
  simp [gatherRow]

theorem length_argsortRow (xs : List Nat) :
    (argsortRow xs).length = xs.length := by
  simp [argsortRow, List.length_mergeSort]

theorem length_invPerm (p : List Nat) : (invPerm p).length = p.length := by
  simp [invPerm]

theorem getElem_invPerm (p : List Nat) (k : Nat) (hk : k < (invPerm p).length) :
    (invPerm p)[k] = List.indexOf k p := by
  simp [invPerm]

theorem getElem_gatherRow (xs idx : List Nat) (k : Nat) (hk : k < idx.length)
    (hk2 : k < (gatherRow xs idx).length) :
    (gatherRow xs idx)[k] = xs.getD (idx[k]) 0 := by
  simp [gatherRow]

theorem argsortRow_perm (xs : List Nat) :
    (argsortRow xs).Perm (List.range xs.length) :=
  List.mergeSort_perm _ _

theorem argsortRow_pairwise (xs : List Nat) :
    (argsortRow xs).Pairwise (fun i j => xs.getD i 0 ≤ xs.getD j 0) := by
  have h :=
    @List.sorted_mergeSort Nat
      (fun i j => Nat.ble (xs.getD i 0) (xs.getD j 0))
      (fun a b c hab hbc => by
        simp only [Nat.ble_eq] at hab hbc ⊢
        exact Nat.le_trans hab hbc)
      (fun a b => by
        simp only [Bool.or_eq_true, Nat.ble_eq]
        exact Nat.le_total _ _)
      (List.range xs.length)
  exact h.imp (fun hab => by simpa [Nat.ble_eq] using hab)

/-- Gathering a row through its argsort permutation yields a row sorted
ascending. -/
theorem gather_argsort_sorted (xs : List Nat) :
    (gatherRow xs (argsortRow xs)).Pairwise (· ≤ ·) := by
  exact List.Pairwise.map _ (fun a b hab => hab) (argsortRow_pairwise xs)

/-- Gathering through any permutation of the position range and then through
its inverse restores the original row. -/
theorem gather_invPerm_gather (xs p : List Nat)
    (hp : p.Perm (List.range xs.length)) :
    gatherRow (gatherRow xs p) (invPerm p) = xs := by
  have hplen : p.length = xs.length := by
    simpa using hp.length_eq
  apply List.ext_getElem
  · simp [length_gatherRow, length_invPerm, hplen]
  · intro k h1 h2
    have hk : k < p.length := by
      simpa [length_gatherRow, length_invPerm] using h1
    have hkx : k < xs.length := hplen ▸ hk
    have hmem : k ∈ p := by
      rw [hp.mem_iff]
      exact List.mem_range.mpr hkx
    have hidx : List.indexOf k p < p.length :=
      List.indexOf_lt_length.mpr hmem
    have hidx2 : List.indexOf k p < (gatherRow xs p).length := by
      simpa [length_gatherRow] using hidx
    have hki : k < (invPerm p).length := by
      rw [length_invPerm]; exact hk
    rw [getElem_gatherRow _ _ k hki h1, getElem_invPerm p k hki,
      List.getD_eq_getElem _ _ hidx2, getElem_gatherRow xs p _ hidx hidx2,
      List.getElem_indexOf]
    exact List.getD_eq_getElem _ _ hkx

theorem init_ok_fields (b : Nat) (gs : Int) (da s lm : Bool)
    (cfg : GPTQMarlinConfig)
    (h : GPTQMarlinConfig.init b gs da s lm = Except.ok cfg) :
    cfg.weight_bits = b ∧ cfg.pack_factor = 32 / b ∧ cfg.group_size = gs ∧
    cfg.desc_act = (if da && gs == -1 then false else da) ∧
    cfg.is_sym = s := by
  unfold GPTQMarlinConfig.init at h
  by_cases hb : b = 0
  · simp [hb] at h
  · simp only [hb, if_false] at h
    cases hmap : TYPE_MAP (b, s) with
    | none => rw [hmap] at h; simp at h
    | some qt =>
        rw [hmap] at h
        simp only [Except.ok.injEq] at h
        subst h
        simp

/-- C3: for every created linear layer, the packed weight tensor has shape
`(input_size_per_partition / pack_factor, output_size_per_partition)` with
`pack_factor = 32 / bit_width`. -/
theorem qweight_packed_shape (b : Nat) (gs : Int) (da s lm : Bool)
    (cfg : GPTQMarlinConfig)
    (h : GPTQMarlinConfig.init b gs da s lm = Except.ok cfg)
    (input_size_per_partition : Nat) (output_partition_sizes : List Nat)
    (input_size output_size : Nat) :
    (GPTQMarlinLinearMethod.create_weights cfg input_size_per_partition
        output_partition_sizes input_size output_size).qweight_rows
      = input_size_per_partition / (32 / b) ∧
    (GPTQMarlinLinearMethod.create_weights cfg input_size_per_partition
        output_partition_sizes input_size output_size).qweight_cols
      = output_partition_sizes.sum := by
  obtain ⟨-, hpf, -, -, -⟩ := init_ok_fields b gs da s lm cfg h
  exact ⟨by simp [GPTQMarlinLinearMethod.create_weights, hpf],
    by simp [GPTQMarlinLinearMethod.create_weights]⟩

/-- Witness for C3 at the spec scenario: group_size=128, input 4096,
output 4096, 4 bits, no tensor parallelism: packed weight shape (512, 4096)
and 32 scale rows. -/
theorem qweight_packed_shape_witness :
    (GPTQMarlinConfig.init 4 128 false true false).isOk = true ∧
    (GPTQMarlinLinearMethod.create_weights
        (GPTQMarlinConfig.initD 4 128 false true false) 4096 [4096] 4096
        4096).qweight_rows = 512 ∧
    (GPTQMarlinLinearMethod.create_weights
        (GPTQMarlinConfig.initD 4 128 false true false) 4096 [4096] 4096
        4096).qweight_cols = 4096 ∧
    (GPTQMarlinLinearMethod.create_weights
        (GPTQMarlinConfig.initD 4 128 false true false) 4096 [4096] 4096
        4096).scales_rows = 32 := by
  have h := qweight_packed_shape 4 128 false true false
    (GPTQMarlinConfig.initD 4 128 false true false) (by rfl)
    4096 [4096] 4096 4096
  exact ⟨by decide, h.1.trans (by decide), h.2.trans (by decide), by decide⟩

/-- C4: config construction succeeds exactly for
`(bit_width, symmetric) ∈ {(4, true), (8, true)}`, yielding the matching
distinct scalar type, and the MoE method constructor accepts exactly
bit-widths 4 and 8. -/
theorem supported_quant_pairs (b : Nat) (s : Bool) (gs : Int) (da lm : Bool)
    (n : Nat) :
    ((GPTQMarlinConfig.init b gs da s lm).isOk = true ↔
      ((b, s) = (4, true) ∨ (b, s) = (8, true))) ∧
    ((b, s) = (4, true) →
      initQuantType b gs da s lm = some ScalarType.uint4b8) ∧
    ((b, s) = (8, true) →
      initQuantType b gs da s lm = some ScalarType.uint8b128) ∧
    ScalarType.uint4b8 ≠ ScalarType.uint8b128 ∧
    ((GPTQMarlinMoEMethod.init n).isOk = true ↔ (n = 4 ∨ n = 8)) := by
  refine ⟨?_, ?_, ?_, by decide, ?_⟩
  · by_cases h4 : (b, s) = (4, true)
    · rw [Prod.mk.injEq] at h4
      simp [GPTQMarlinConfig.init, TYPE_MAP, h4.1, h4.2, Except.isOk, Except.toBool]
    · by_cases h8 : (b, s) = (8, true)
      · rw [Prod.mk.injEq] at h8
        simp [GPTQMarlinConfig.init, TYPE_MAP, h8.1, h8.2, Except.isOk, Except.toBool]
      · rcases eq_or_ne b 0 with hb | hb <;>
          simp [GPTQMarlinConfig.init, TYPE_MAP, hb, h4, h8, Except.isOk, Except.toBool]
  · intro h4
    rw [Prod.mk.injEq] at h4
    obtain ⟨rfl, rfl⟩ := h4
    simp [initQuantType, GPTQMarlinConfig.init, TYPE_MAP, Except.toOption]
  · intro h8
    rw [Prod.mk.injEq] at h8
    obtain ⟨rfl, rfl⟩ := h8
    simp [initQuantType, GPTQMarlinConfig.init, TYPE_MAP, Except.toOption]
  · rcases eq_or_ne n 4 with hn4 | hn4 <;>
      rcases eq_or_ne n 8 with hn8 | hn8 <;>
        simp [GPTQMarlinMoEMethod.init, hn4, hn8, Except.isOk, Except.toBool]

/-- Witness for C4: (4, true) constructs and yields uint4b8; (4, false),
(3, true) and MoE bit-width 6 are rejected. -/
theorem supported_quant_pairs_witness :
    (GPTQMarlinConfig.init 4 128 false true false).isOk = true ∧
    initQuantType 4 128 false true false = some ScalarType.uint4b8 ∧
    (GPTQMarlinConfig.init 4 128 false false false).isOk = false ∧
    (GPTQMarlinConfig.init 3 128 false true false).isOk = false ∧
    (GPTQMarlinMoEMethod.init 6).isOk = false := by
  have hOk := supported_quant_pairs 4 true 128 false false 6
  have hSym := supported_quant_pairs 4 false 128 false false 6
  have hBits := supported_quant_pairs 3 true 128 false false 6
  refine ⟨hOk.1.mpr (Or.inl rfl), hOk.2.1 rfl, ?_, ?_, ?_⟩
  · exact Bool.eq_false_iff.mpr (fun hc => by
      have := hSym.1.mp hc
      simp at this)
  · exact Bool.eq_false_iff.mpr (fun hc => by
      have := hBits.1.mp hc
      simp at this)
  · exact Bool.eq_false_iff.mpr (fun hc => by
      have := (hOk.2.2.2.2).mp hc
      simp at this)

/-- C10: construction with `desc_act = true` and `group_size = -1` yields a
config with `desc_act = false`; hence in every constructed config,
activation-order enabled implies `group_size` is not -1. -/
theorem desc_act_channelwise_normalised (b : Nat) (gs : Int) (da s lm : Bool)
    (cfg : GPTQMarlinConfig)
    (h : GPTQMarlinConfig.init b gs da s lm = Except.ok cfg) :
    (gs = -1 → cfg.desc_act = false) ∧
    (cfg.desc_act = true → cfg.group_size ≠ -1) := by
  obtain ⟨-, -, hgs, hda, -⟩ := init_ok_fields b gs da s lm cfg h
  constructor
  · intro h1
    subst h1
    cases da <;> simp [hda]
  · intro h2 hcontra
    rw [hgs] at hcontra
    subst hcontra
    cases da <;> simp [hda] at h2

/-- Witness for C10: `desc_act=true, group_size=-1` constructs with
`desc_act` forced to false. -/
theorem desc_act_channelwise_normalised_witness :
    (GPTQMarlinConfig.init 4 (-1) true true false).isOk = true ∧
    (GPTQMarlinConfig.initD 4 (-1) true true false).desc_act = false := by
  have h := desc_act_channelwise_normalised 4 (-1) true true false
    (GPTQMarlinConfig.initD 4 (-1) true true false) (by rfl)
  exact ⟨by decide, h.1 rfl⟩

/-- C8: the MoE apply path rejects `enable_eplb` with NotImplementedError and
any activation other than "silu" via the assert, before any kernel work;
the kernel hand-off happens only when both checks pass. -/
theorem moe_apply_feature_checks (e : Bool) (a : String) :
    (e = true → GPTQMarlinMoEMethod.apply e a =
      Except.error
        "NotImplementedError: EPLB not supported for GPTQMarlinMoEMethod yet.") ∧
    (a ≠ "silu" → (GPTQMarlinMoEMethod.apply e a).isOk = false) ∧
    ((GPTQMarlinMoEMethod.apply e a).isOk = true ↔ (e = false ∧ a = "silu")) := by
  cases e <;> by_cases ha : a = "silu" <;>
    simp [GPTQMarlinMoEMethod.apply, ha, Except.isOk, Except.toBool]

/-- Witness for C8: apply with eplb enabled errors; apply with activation
"gelu" errors; apply with defaults succeeds. -/
theorem moe_apply_feature_checks_witness :
    (GPTQMarlinMoEMethod.apply true "silu").isOk = false ∧
    (GPTQMarlinMoEMethod.apply false "gelu").isOk = false ∧
    (GPTQMarlinMoEMethod.apply false "silu").isOk = true := by
  have h1 := moe_apply_feature_checks true "silu"
  have h2 := moe_apply_feature_checks false "gelu"
  have h3 := moe_apply_feature_checks false "silu"
  refine ⟨?_, ?_, h3.2.2.mpr ⟨rfl, rfl⟩⟩
  · rw [h1.1 rfl]; rfl
  · exact h2.2.1 (by decide)

/-- C5: the `size_k` passed to the scale permutation for the MoE
down-projection equals `scale_rows * group_size` when group-wise and
`scale_rows * pack_factor` when channel-wise; channel-wise created layers
have exactly one down-projection scale row per expert. -/
theorem moe_w2_size_k_rule (cfg : GPTQMarlinConfig) (layer : MoeLayer)
    (num_experts hidden_size ipp ifull : Nat) :
    (0 < cfg.group_size →
      moe_w2_scales_size_k cfg layer =
        layer.w2_scales.dim1 * cfg.group_size.toNat) ∧
    (cfg.group_size = -1 →
      moe_w2_scales_size_k cfg layer =
        layer.w2_scales.dim1 * cfg.pack_factor) ∧
    (cfg.group_size = -1 →
      (GPTQMarlinMoEMethod.create_weights cfg num_experts hidden_size ipp
          ifull).w2_scales.dim1 = 1) := by
  refine ⟨?_, ?_, ?_⟩
  · intro h
    have hne : cfg.group_size ≠ -1 := by omega
    simp [moe_w2_scales_size_k, hne]
  · intro h
    simp [moe_w2_scales_size_k, h]
  · intro h
    simp [GPTQMarlinMoEMethod.create_weights, h]

/-- Witness for C5 at the spec MoE scenario: 8 experts, channel-wise
(group_size = -1), hidden 2048, 4 bits: one scale row per expert for the
down-projection and `size_k = 1 * pack_factor = 8`. -/
theorem moe_w2_size_k_rule_witness :
    (GPTQMarlinConfig.init 4 (-1) false true false).isOk = true ∧
    (GPTQMarlinMoEMethod.create_weights
        (GPTQMarlinConfig.initD 4 (-1) false true false) 8 2048 1024
        1024).w2_scales.dim1 = 1 ∧
    moe_w2_scales_size_k (GPTQMarlinConfig.initD 4 (-1) false true false)
      (GPTQMarlinMoEMethod.create_weights
        (GPTQMarlinConfig.initD 4 (-1) false true false) 8 2048 1024 1024)
      = 8 ∧
    moe_w2_scales_size_k (GPTQMarlinConfig.initD 4 128 false true false)
      (GPTQMarlinMoEMethod.create_weights
        (GPTQMarlinConfig.initD 4 128 false true false) 8 2048 1024 1024)
      = 1024 := by
  have hcw := moe_w2_size_k_rule (GPTQMarlinConfig.initD 4 (-1) false true false)
    (GPTQMarlinMoEMethod.create_weights
      (GPTQMarlinConfig.initD 4 (-1) false true false) 8 2048 1024 1024)
    8 2048 1024 1024
  have hgw := moe_w2_size_k_rule (GPTQMarlinConfig.initD 4 128 false true false)
    (GPTQMarlinMoEMethod.create_weights
      (GPTQMarlinConfig.initD 4 128 false true false) 8 2048 1024 1024)
    8 2048 1024 1024
  refine ⟨by decide, hcw.2.2 (by decide), (hcw.2.1 (by decide)).trans (by decide),
    (hgw.1 (by decide)).trans (by decide)⟩

/-- C6: when activation-order is disabled, finalize replaces every g_idx and
sort-indices tensor with an explicit `(num_experts, 0)` tensor, where
`num_experts = w13_g_idx.shape[0]`. -/
theorem moe_finalize_resets_g_idx (cfg : GPTQMarlinConfig)
    (repack : Tensor3 → List (List Nat) → Nat → Nat → Nat → Tensor3)
    (permuteScales : Tensor3 → Nat → Nat → Int → Tensor3)
    (layer newLayer : MoeLayer)
    (hda : cfg.desc_act = false)
    (h : GPTQMarlinMoEMethod.process_weights_after_loading cfg repack
        permuteScales layer = Except.ok newLayer) :
    newLayer.w13_g_idx = List.replicate layer.w13_g_idx.length [] ∧
    newLayer.w2_g_idx = List.replicate layer.w13_g_idx.length [] ∧
    newLayer.w13_g_idx_sort_indices =
      List.replicate layer.w13_g_idx.length [] ∧
    newLayer.w2_g_idx_sort_indices =
      List.replicate layer.w13_g_idx.length [] := by
  unfold GPTQMarlinMoEMethod.process_weights_after_loading at h
  rw [hda] at h
  simp only [Bool.false_eq_true, if_false, Except.ok.injEq] at h
  subst h
  simp

/-- Trivial stand-in for the external `ops.gptq_marlin_moe_repack` kernel,
used only to instantiate theorems at concrete inputs. -/
def sampleRepack : Tensor3 → List (List Nat) → Nat → Nat → Nat → Tensor3 :=
  fun t _ _ _ _ => t

/-- Trivial stand-in for the external `marlin_moe_permute_scales` kernel,
used only to instantiate theorems at concrete inputs. -/
def samplePermuteScales : Tensor3 → Nat → Nat → Int → Tensor3 :=
  fun t _ _ _ => t

/-- A small concrete two-expert MoE layer state (as left by the weight
loader) for instantiating the finalize theorems. -/
def sampleMoeLayer : MoeLayer where
  w13_qweight := ⟨2, 1, 8⟩
  w2_qweight := ⟨2, 1, 8⟩
  w13_scales := ⟨2, 1, 8⟩
  w2_scales := ⟨2, 1, 8⟩
  load_full_w2 := false
  w13_g_idx := [[2, 0, 1], [1, 2, 0]]
  w2_g_idx := [[1, 0], [0, 1]]
  w13_g_idx_sort_indices := [[0, 0, 0], [0, 0, 0]]
  w2_g_idx_sort_indices := [[0, 0], [0, 0]]
  intermediate_size_per_partition := 4

/-- Witness for C6: finalizing a concrete two-expert layer under a
`desc_act = false` config resets all four index tensors to two empty rows. -/
theorem moe_finalize_resets_g_idx_witness :
    (GPTQMarlinConfig.initD 4 128 false true false).desc_act = false ∧
    ((GPTQMarlinMoEMethod.process_weights_after_loading
        (GPTQMarlinConfig.initD 4 128 false true false) sampleRepack
        samplePermuteScales sampleMoeLayer).toOption.getD
      default).w13_g_idx = List.replicate 2 [] ∧
    ((GPTQMarlinMoEMethod.process_weights_after_loading
        (GPTQMarlinConfig.initD 4 128 false true false) sampleRepack
        samplePermuteScales sampleMoeLayer).toOption.getD
      default).w2_g_idx_sort_indices = List.replicate 2 [] := by
  have h := moe_finalize_resets_g_idx
    (GPTQMarlinConfig.initD 4 128 false true false) sampleRepack
    samplePermuteScales sampleMoeLayer
    ((GPTQMarlinMoEMethod.process_weights_after_loading
        (GPTQMarlinConfig.initD 4 128 false true false) sampleRepack
        samplePermuteScales sampleMoeLayer).toOption.getD default)
    (by decide) (by rfl)
  exact ⟨by decide, h.1.trans (by decide), h.2.2.2.trans (by decide)⟩

/-- Counterexample to C9: finalize run twice in a row on a concrete layer
(with activation-order enabled, so the second run re-sorts already-sorted
data) succeeds both times; no detection or rejection occurs. -/
theorem double_finalize_not_rejected :
    (GPTQMarlinMoEMethod.process_weights_after_loading
        (GPTQMarlinConfig.initD 4 128 true true false) sampleRepack
        samplePermuteScales sampleMoeLayer >>=
      GPTQMarlinMoEMethod.process_weights_after_loading
        (GPTQMarlinConfig.initD 4 128 true true false) sampleRepack
        samplePermuteScales).isOk = true := by
  rfl

/-- C9 amended: `process_weights_after_loading` contains no guard at all; it
never rejects, for any config, kernels and layer state, so a second call
silently re-runs the transformation. -/
theorem moe_finalize_never_fails (cfg : GPTQMarlinConfig)
    (repack : Tensor3 → List (List Nat) → Nat → Nat → Nat → Tensor3)
    (permuteScales : Tensor3 → Nat → Nat → Int → Tensor3)
    (layer : MoeLayer) :
    (GPTQMarlinMoEMethod.process_weights_after_loading cfg repack
      permuteScales layer).isOk = true := by
  rfl

theorem getD_map_lt {α β : Type} (f : α → β) (l : List α) (e : Nat) (d : β)
    (d2 : α) (he : e < l.length) :
    (l.map f).getD e d = f (l.getD e d2) := by
  rw [List.getD_eq_getElem _ _ (by simpa using he),
    List.getD_eq_getElem _ _ he, List.getElem_map]

/-- C2: with activation-order enabled, finalize stores per expert the
argsort permutation of the g_idx row of that expert, replaces the row by the
gather of the row through that permutation (hence sorted ascending), and
gathering the sorted row back through the inverse permutation restores the
original row; stated here for the w13 tensors of an arbitrary expert `e`
(the w2 tensors are handled by the identical code path). -/
theorem moe_act_order_sort_roundtrip (cfg : GPTQMarlinConfig)
    (repack : Tensor3 → List (List Nat) → Nat → Nat → Nat → Tensor3)
    (permuteScales : Tensor3 → Nat → Nat → Int → Tensor3)
    (layer newLayer : MoeLayer)
    (hda : cfg.desc_act = true)
    (h : GPTQMarlinMoEMethod.process_weights_after_loading cfg repack
        permuteScales layer = Except.ok newLayer)
    (e : Nat) (he13 : e < layer.w13_g_idx.length)
    (he2 : e < layer.w2_g_idx.length)
    (hnd13 : (layer.w13_g_idx.getD e []).Nodup)
    (hnd2 : (layer.w2_g_idx.getD e []).Nodup) :
    (newLayer.w13_g_idx_sort_indices.getD e [] =
      argsortRow (layer.w13_g_idx.getD e []) ∧
    newLayer.w13_g_idx.getD e [] =
      gatherRow (layer.w13_g_idx.getD e [])
        (argsortRow (layer.w13_g_idx.getD e [])) ∧
    (newLayer.w13_g_idx.getD e []).Pairwise (· ≤ ·) ∧
    gatherRow (newLayer.w13_g_idx.getD e [])
        (invPerm (newLayer.w13_g_idx_sort_indices.getD e [])) =
      layer.w13_g_idx.getD e []) ∧
    (newLayer.w2_g_idx_sort_indices.getD e [] =
      argsortRow (layer.w2_g_idx.getD e []) ∧
    newLayer.w2_g_idx.getD e [] =
      gatherRow (layer.w2_g_idx.getD e [])
        (argsortRow (layer.w2_g_idx.getD e [])) ∧
    (newLayer.w2_g_idx.getD e []).Pairwise (· ≤ ·) ∧
    gatherRow (newLayer.w2_g_idx.getD e [])
        (invPerm (newLayer.w2_g_idx_sort_indices.getD e [])) =
      layer.w2_g_idx.getD e []) := by
  unfold GPTQMarlinMoEMethod.process_weights_after_loading at h
  rw [hda] at h
  simp only [if_true, Except.ok.injEq] at h
  subst h
  simp only
  have hs13 : (layer.w13_g_idx.map argsortRow).getD e [] =
      argsortRow (layer.w13_g_idx.getD e []) :=
    getD_map_lt argsortRow layer.w13_g_idx e [] [] he13
  have hg13 : (layer.w13_g_idx.map
        (fun r => gatherRow r (argsortRow r))).getD e [] =
      gatherRow (layer.w13_g_idx.getD e [])
        (argsortRow (layer.w13_g_idx.getD e [])) :=
    getD_map_lt _ layer.w13_g_idx e [] [] he13
  have hs2 : (layer.w2_g_idx.map argsortRow).getD e [] =
      argsortRow (layer.w2_g_idx.getD e []) :=
    getD_map_lt argsortRow layer.w2_g_idx e [] [] he2
  have hg2 : (layer.w2_g_idx.map
        (fun r => gatherRow r (argsortRow r))).getD e [] =
      gatherRow (layer.w2_g_idx.getD e [])
        (argsortRow (layer.w2_g_idx.getD e [])) :=
    getD_map_lt _ layer.w2_g_idx e [] [] he2
  rw [hs13, hg13, hs2, hg2]
  exact ⟨⟨rfl, rfl, gather_argsort_sorted _,
      gather_invPerm_gather _ _ (argsortRow_perm _)⟩,
    ⟨rfl, rfl, gather_argsort_sorted _,
      gather_invPerm_gather _ _ (argsortRow_perm _)⟩⟩

/-- The concrete result of finalizing `sampleMoeLayer` under an
activation-order config. -/
def sampleFinalizedActOrder : MoeLayer :=
  (GPTQMarlinMoEMethod.process_weights_after_loading
    (GPTQMarlinConfig.initD 4 128 true true false) sampleRepack
    samplePermuteScales sampleMoeLayer).toOption.getD default

/-- Witness for C2: on the concrete two-expert layer, the g_idx row of expert 0
is replaced by its sorted version and gathering it back through the inverse
permutation restores the original row. -/
theorem moe_act_order_sort_roundtrip_witness :
    (GPTQMarlinConfig.initD 4 128 true true false).desc_act = true ∧
    (0 : Nat) < sampleMoeLayer.w13_g_idx.length ∧
    (sampleMoeLayer.w13_g_idx.getD 0 []).Nodup ∧
    sampleFinalizedActOrder.w13_g_idx.getD 0 [] =
      gatherRow (sampleMoeLayer.w13_g_idx.getD 0 [])
        (argsortRow (sampleMoeLayer.w13_g_idx.getD 0 [])) ∧
    (sampleFinalizedActOrder.w13_g_idx.getD 0 []).Pairwise (· ≤ ·) ∧
    gatherRow (sampleFinalizedActOrder.w13_g_idx.getD 0 [])
        (invPerm (sampleFinalizedActOrder.w13_g_idx_sort_indices.getD 0 [])) =
      sampleMoeLayer.w13_g_idx.getD 0 [] := by
  have h := moe_act_order_sort_roundtrip
    (GPTQMarlinConfig.initD 4 128 true true false) sampleRepack
    samplePermuteScales sampleMoeLayer sampleFinalizedActOrder (by decide)
    (by rfl) 0 (by decide) (by decide) (by decide) (by decide)
  exact ⟨by decide, by decide, by decide, h.1.2.1, h.1.2.2.1, h.1.2.2.2⟩

theorem resolveAux_of_negative_match (layerName : String)
    (rules : List OverrideRule)
    (hex : ∃ r ∈ rules, r.polarity = Polarity.negative ∧
      r.ruleMatches layerName = true) :
    ∀ working : QuantPolicy, resolveAux working layerName rules = none := by
  induction rules with
  | nil => simp at hex
  | cons r rs ih =>
      intro working
      obtain ⟨r0, hr0, hpol, hm⟩ := hex
      rcases List.mem_cons.mp hr0 with rfl | hmem
      · simp [resolveAux, hm, hpol]
      · by_cases hrm : r.ruleMatches layerName = true
        · cases hp : r.polarity with
          | negative => simp [resolveAux, hrm, hp]
          | positive =>
              simp only [resolveAux, hrm, if_true, hp]
              exact ih ⟨r0, hmem, hpol, hm⟩ _
        · simp only [resolveAux, hrm, if_false]
          exact ih ⟨r0, hmem, hpol, hm⟩ _

theorem resolveAux_of_no_match (layerName : String)
    (rules : List OverrideRule)
    (hno : ∀ r ∈ rules, r.ruleMatches layerName = false) :
    ∀ working : QuantPolicy, resolveAux working layerName rules = some working := by
  induction rules with
  | nil => intro working; rfl
  | cons r rs ih =>
      intro working
      have hr : r.ruleMatches layerName = false := hno r (by simp)
      simp only [resolveAux, hr, if_false]
      exact ih (fun q hq => hno q (List.mem_cons_of_mem r hq)) working

/-- C7: if any exclude-polarity rule matches the layer name, resolution
returns Skip and the unquantized MoE method is selected, regardless of the
other rules; if no rule matches, the base policy is returned unchanged (the
resolver is a pure function of the base policy, which is never written). -/
theorem override_resolution_rules (base : QuantPolicy)
    (rules : List OverrideRule) (layerName : String) :
    ((∃ r ∈ rules, r.polarity = Polarity.negative ∧
        r.ruleMatches layerName = true) →
      resolve base rules layerName = none ∧
      get_moe_quant_method base rules layerName =
        MoeMethodChoice.unquantized) ∧
    ((∀ r ∈ rules, r.ruleMatches layerName = false) →
      resolve base rules layerName = some base ∧
      get_moe_quant_method base rules layerName =
        MoeMethodChoice.quantized base) := by
  constructor
  · intro hex
    have h := resolveAux_of_negative_match layerName rules hex base
    exact ⟨h, by simp [get_moe_quant_method, resolve, h]⟩
  · intro hno
    have h := resolveAux_of_no_match layerName rules hno base
    exact ⟨h, by simp [get_moe_quant_method, resolve, h]⟩

/-- Witness for C7: a matching exclude rule placed after a matching include
rule still yields Skip/unquantized, and an empty rule list returns the base
policy unchanged. -/
theorem override_resolution_rules_witness :
    resolve ⟨4, true, 128, false, false⟩
      [⟨fun _ => true, Polarity.positive, { bits := some 8 }⟩,
        ⟨fun _ => true, Polarity.negative, {}⟩] "layers.5.moe.gate" = none ∧
    get_moe_quant_method ⟨4, true, 128, false, false⟩
      [⟨fun _ => true, Polarity.positive, { bits := some 8 }⟩,
        ⟨fun _ => true, Polarity.negative, {}⟩] "layers.5.moe.gate" =
      MoeMethodChoice.unquantized ∧
    resolve ⟨4, true, 128, false, false⟩ [] "layers.30.attn" =
      some ⟨4, true, 128, false, false⟩ ∧
    get_moe_quant_method ⟨4, true, 128, false, false⟩ [] "layers.30.attn" =
      MoeMethodChoice.quantized ⟨4, true, 128, false, false⟩ := by
  have h1 := (override_resolution_rules ⟨4, true, 128, false, false⟩
    [⟨fun _ => true, Polarity.positive, { bits := some 8 }⟩,
      ⟨fun _ => true, Polarity.negative, {}⟩] "layers.5.moe.gate").1
    ⟨⟨fun _ => true, Polarity.negative, {}⟩, by simp, rfl, rfl⟩
  have h2 := (override_resolution_rules ⟨4, true, 128, false, false⟩ []
    "layers.30.attn").2 (by simp)
  exact ⟨h1.1, h1.2, h2.1, h2.2⟩

/-- C1 (amended): for group-wise configs, linear-layer scales are replicated
(`scales_and_zp_input_dim = None`, rows sized on global input) when
activation-order is disabled or the partition is not row-parallel, and
sharded (`= 0`, rows sized on the partition) exactly when activation-order
is enabled and the partition is row-parallel; the MoE down-projection scales
follow the OPPOSITE rule: with activation-order enabled they are sized on
the full intermediate size and flagged `load_full_w2` (replicated), and only
with it disabled are they sized on the partition. -/
theorem scales_sharding_rule (cfg : GPTQMarlinConfig)
    (input_size_per_partition : Nat) (output_partition_sizes : List Nat)
    (input_size output_size : Nat)
    (num_experts hidden_size moe_ipp moe_ifull : Nat)
    (hgs : cfg.group_size ≠ -1) :
    ((cfg.desc_act = false ∨ input_size = input_size_per_partition) →
      (GPTQMarlinLinearMethod.create_weights cfg input_size_per_partition
          output_partition_sizes input_size output_size).scales_input_dim
        = none ∧
      (GPTQMarlinLinearMethod.create_weights cfg input_size_per_partition
          output_partition_sizes input_size output_size).scales_rows
        = input_size / cfg.group_size.toNat) ∧
    ((cfg.desc_act = true ∧ input_size ≠ input_size_per_partition) →
      (GPTQMarlinLinearMethod.create_weights cfg input_size_per_partition
          output_partition_sizes input_size output_size).scales_input_dim
        = some 0 ∧
      (GPTQMarlinLinearMethod.create_weights cfg input_size_per_partition
          output_partition_sizes input_size output_size).scales_rows
        = input_size_per_partition / cfg.group_size.toNat) ∧
    (cfg.desc_act = true →
      (GPTQMarlinMoEMethod.create_weights cfg num_experts hidden_size
          moe_ipp moe_ifull).w2_scales.dim1
        = moe_ifull / cfg.group_size.toNat ∧
      (GPTQMarlinMoEMethod.create_weights cfg num_experts hidden_size
          moe_ipp moe_ifull).load_full_w2 = true) ∧
    (cfg.desc_act = false →
      (GPTQMarlinMoEMethod.create_weights cfg num_experts hidden_size
          moe_ipp moe_ifull).w2_scales.dim1
        = moe_ipp / cfg.group_size.toNat ∧
      (GPTQMarlinMoEMethod.create_weights cfg num_experts hidden_size
          moe_ipp moe_ifull).load_full_w2 = false) := by
  refine ⟨?_, ?_, ?_, ?_⟩
  · rintro (hda | rfl)
    · constructor <;>
        simp [GPTQMarlinLinearMethod.create_weights,
          marlin_repeat_scales_on_all_ranks, hda, hgs]
    · constructor <;>
        simp [GPTQMarlinLinearMethod.create_weights,
          marlin_repeat_scales_on_all_ranks, hgs]
  · rintro ⟨hda, hne⟩
    constructor <;>
      simp [GPTQMarlinLinearMethod.create_weights,
        marlin_repeat_scales_on_all_ranks, hda, hne, hgs]
  · intro hda
    constructor <;> simp [GPTQMarlinMoEMethod.create_weights, hda, hgs]
  · intro hda
    constructor <;> simp [GPTQMarlinMoEMethod.create_weights, hda, hgs]

/-- Counterexample to C1 as stated: with activation-order enabled and a
row-parallel MoE down-projection (partition 16 of full 32, group size 8),
the code allocates 32/8 = 4 down-projection scale rows (full size,
replicated), not the 16/8 = 2 rows the claimed sharding rule predicts. -/
theorem scales_sharding_rule_counterexample :
    (GPTQMarlinConfig.init 4 8 true true false).isOk = true ∧
    (GPTQMarlinConfig.initD 4 8 true true false).desc_act = true ∧
    (16 : Nat) ≠ 32 ∧
    (GPTQMarlinMoEMethod.create_weights
        (GPTQMarlinConfig.initD 4 8 true true false) 1 32 16
        32).w2_scales.dim1 = 4 ∧
    (4 : Nat) ≠ 16 / 8 := by decide

/-- Witness for C1 (amended): with desc_act and group size 8, a row-parallel
linear partition (32 of 64) gets sharded scales (4 rows), a non-row-parallel
one (64 of 64) gets replicated scales (8 rows), and the MoE down-projection
(partition 16 of full 32) gets 4 full-size rows with `load_full_w2`. -/
theorem scales_sharding_rule_witness :
    (GPTQMarlinConfig.initD 4 8 true true false).group_size ≠ -1 ∧
    (GPTQMarlinLinearMethod.create_weights
        (GPTQMarlinConfig.initD 4 8 true true false) 32 [64] 64
        64).scales_input_dim = some 0 ∧
    (GPTQMarlinLinearMethod.create_weights
        (GPTQMarlinConfig.initD 4 8 true true false) 32 [64] 64
        64).scales_rows = 4 ∧
    (GPTQMarlinLinearMethod.create_weights
        (GPTQMarlinConfig.initD 4 8 true true false) 64 [64] 64
        64).scales_input_dim = none ∧
    (GPTQMarlinLinearMethod.create_weights
        (GPTQMarlinConfig.initD 4 8 true true false) 64 [64] 64
        64).scales_rows = 8 ∧
    (GPTQMarlinMoEMethod.create_weights
        (GPTQMarlinConfig.initD 4 8 true true false) 1 32 16
        32).w2_scales.dim1 = 4 ∧
    (GPTQMarlinMoEMethod.create_weights
        (GPTQMarlinConfig.initD 4 8 true true false) 1 32 16
        32).load_full_w2 = true := by
  have h1 := scales_sharding_rule (GPTQMarlinConfig.initD 4 8 true true false)
    32 [64] 64 64 1 32 16 32 (by decide)
  have h2 := scales_sharding_rule (GPTQMarlinConfig.initD 4 8 true true false)
    64 [64] 64 64 1 32 16 32 (by decide)
  refine ⟨by decide, (h1.2.1 ⟨by decide, by decide⟩).1,
    (h1.2.1 ⟨by decide, by decide⟩).2.trans (by decide),
    (h2.1 (Or.inr rfl)).1, (h2.1 (Or.inr rfl)).2.trans (by decide),
    (h1.2.2.1 (by decide)).1.trans (by decide), (h1.2.2.1 (by decide)).2⟩
